import Mathlib

/-!
# The session controller of `tui/bubble.go`

A shallow embedding of `Bubble.Update` and `Bubble.footerView` (package `tui`).

Modelling conventions.

* The receiver `b *Bubble` is mutated in place; the model passes the controller
  record explicitly.  A run-time panic is an outcome of its own which carries
  the controller as it stands at the point of failure (the writes made through
  the pointer before the panic stay visible).
* A pointer to a pane widget is modelled by the value it points to.  Since
  `rb.GotoTop()` mutates the widget the menu entry points to, the reset widget
  is written back into the menu entry.
* The two pane widgets (`selection.Bubble`, `repo.Bubble`) live in the packages
  `tui/bubbles/selection` and `tui/bubbles/repo`, outside `tui/bubble.go`.  Their
  `Update` and `GotoTop` methods are parameters of the model (`Widgets`).
* A `tea.Model` interface value stored in a pane slot is `Option (Model S R)`;
  `none` is the nil interface that `make([]tea.Model, 2)` puts in both slots.
* Go `int` values are `Int`.  The only arithmetic on them is `activeBox + 1`,
  `activeBox - 1` and `% 2`; `%` is the truncated remainder (`Int.tmod`), and
  wrapping at 64 bits does not change `(x + 1) % 2` because `2 ^ 64` is even.
-/

namespace Tui

/-- The Go enumeration `sessionState`, in declaration order. -/
inductive sessionState where
  | startState
  | errorState
  | loadedState
  | quittingState
  | quitState
  deriving DecidableEq, Repr

open sessionState

/-- The messages `Bubble.Update` distinguishes in its type switch.  A key message
is represented by the result of `msg.String()`, an error message by the result
of `msg.Error()`.  `other` stands for a message of any other dynamic type. -/
inductive Msg where
  | KeyMsg (s : String)
  | errMsg (text : String)
  | windowMsg
  | WindowSizeMsg (Width Height : Int)
  | SelectedMsg (Index : Int)
  | ActiveMsg (Index : Int)
  | other (tag : Nat)
  deriving DecidableEq, Repr

/-- The dynamic type of a non-nil `tea.Model` held in a pane slot: the selector
(`*selection.Bubble`) or the detail viewer (`*repo.Bubble`). -/
inductive Model (S R : Type) where
  | selection (s : S)
  | repo (r : R)
  deriving DecidableEq, Repr

/-- The commands collected in the local slice `cmds`: the resize pump, or a
command handed back by a pane widget. -/
inductive BaseCmd (C : Type) where
  | windowChangesCmd
  | setupCmd
  | child (c : C)
  deriving DecidableEq, Repr

/-- A non-nil `tea.Cmd` returned by the controller: `tea.Quit` or
`tea.Batch(cmds...)`.  The nil command is `none` in `Option (Cmd C)`. -/
inductive Cmd (C : Type) where
  | Quit
  | Batch (cmds : List (BaseCmd C))
  deriving DecidableEq, Repr

/-- The pane widgets, as far as the controller uses them: `Update` of either
widget kind (it may hand back any model, also nil, and an optional command) and
`GotoTop` of the detail viewer. -/
structure Widgets (S R C : Type) where
  selectionUpdate : S → Msg → Option (Model S R) × Option C
  repoUpdate : R → Msg → Option (Model S R) × Option C
  GotoTop : R → R

/-- Dynamic dispatch of `Update` on a non-nil `tea.Model`. -/
def Widgets.update {S R C : Type} (W : Widgets S R C) :
    Model S R → Msg → Option (Model S R) × Option C
  | .selection s, msg => W.selectionUpdate s msg
  | .repo r, msg => W.repoUpdate r msg

/-- The Go struct `MenuEntry`; `bubble` is the detail viewer the entry points to. -/
structure MenuEntry (R : Type) where
  Name : String
  Note : String
  Repo : String
  bubble : R
  deriving DecidableEq, Repr

/-- The Go struct `SessionConfig`, without the resize channel. -/
structure SessionConfig where
  Width : Int
  Height : Int
  InitialRepo : String
  deriving DecidableEq, Repr

/-- The Go struct `Bubble`: the fields read or written by `Update` and
`footerView`.  The handles `config`, `windowChanges`, `repoSource`, `repos`,
`repoSelect` and `commitsLog` are touched by neither. -/
structure Bubble (S R : Type) where
  state : sessionState
  error : String
  width : Int
  height : Int
  initialRepo : String
  repoMenu : List (MenuEntry R)
  boxes : List (Option (Model S R))
  activeBox : Int
  deriving DecidableEq, Repr

/-- The result of a method call on the controller: it returns normally with the
controller and a value, or it panics, leaving the controller as it stands. -/
inductive Outcome (B V : Type) where
  | ok (b : B) (v : V)
  | panic (b : B)
  deriving DecidableEq, Repr

/-- The controller behind the receiver pointer once the call is over, whether it
returned or panicked. -/
def Outcome.controller {B V : Type} : Outcome B V → B
  | .ok b _ => b
  | .panic b => b

/-- Go slice indexing `l[i]`: `none` when the index is out of range (negative or
not below the length), which is where Go panics. -/
def index? {α : Type} (l : List α) (i : Int) : Option α :=
  if 0 ≤ i then l.get? i.toNat else none

/-- Go slice store `l[i] = v`, used at an index that is in range. -/
def store {α : Type} (l : List α) (i : Int) (v : α) : List α :=
  l.set i.toNat v

/-- `NewBubble`: both pane slots nil, empty menu, active pane 0, start state. -/
def NewBubble {S R : Type} (sCfg : SessionConfig) : Bubble S R :=
  { state := startState
    error := ""
    width := sCfg.Width
    height := sCfg.Height
    initialRepo := sCfg.InitialRepo
    repoMenu := []
    boxes := [none, none]
    activeBox := 0 }

/-- `Bubble.Init`: the batch of the resize pump and the setup command. -/
def Init {C : Type} : Cmd C :=
  .Batch [.windowChangesCmd, .setupCmd]

/-- The block
`if b.state == loadedState { ab, cmd := b.boxes[b.activeBox].Update(msg); b.boxes[b.activeBox] = ab; if cmd != nil { cmds = append(cmds, cmd) } }`
which occurs twice in `Update`: in the `tea.WindowSizeMsg` case and after the
type switch.  It yields the controller and the grown slice `cmds`. -/
def forwardToActive {S R C : Type} (W : Widgets S R C) (b : Bubble S R) (msg : Msg)
    (cmds : List (BaseCmd C)) : Outcome (Bubble S R) (List (BaseCmd C)) :=
  if b.state = loadedState then
    match index? b.boxes b.activeBox with
    | none => .panic b
    | some none => .panic b
    | some (some m) =>
      let r := W.update m msg
      let b1 := { b with boxes := store b.boxes b.activeBox r.1 }
      match r.2 with
      | none => .ok b1 cmds
      | some c => .ok b1 (cmds ++ [.child c])
  else .ok b cmds

/-- The tail of `Update` after the type switch: forward to the active pane when
loaded, then `return b, tea.Batch(cmds...)`. -/
def finish {S R C : Type} (W : Widgets S R C) (b : Bubble S R) (msg : Msg)
    (cmds : List (BaseCmd C)) : Outcome (Bubble S R) (Option (Cmd C)) :=
  match forwardToActive W b msg cmds with
  | .panic b1 => .panic b1
  | .ok b1 cmds1 => .ok b1 (some (.Batch cmds1))

/-- The `tea.KeyMsg` case of the type switch, on `msg.String()`; `none` is the
early `return b, tea.Quit`. -/
def keySwitch {S R : Type} (b : Bubble S R) (s : String) : Option (Bubble S R) :=
  if s = "q" ∨ s = "ctrl+c" then none
  else if s = "tab" ∨ s = "shift+tab" then
    some { b with activeBox := (b.activeBox + 1).tmod 2 }
  else if s = "h" ∨ s = "left" then
    some (if b.activeBox > 0 then { b with activeBox := b.activeBox - 1 } else b)
  else if s = "l" ∨ s = "right" then
    some (if b.activeBox < (b.boxes.length : Int) - 1 then
      { b with activeBox := b.activeBox + 1 } else b)
  else some b

/-- `Bubble.Update`. -/
def Update {S R C : Type} (W : Widgets S R C) (b : Bubble S R) (msg : Msg) :
    Outcome (Bubble S R) (Option (Cmd C)) :=
  match msg with
  | .KeyMsg s =>
    match keySwitch b s with
    | none => .ok b (some .Quit)
    | some b1 => finish W b1 msg []
  | .errMsg text => .ok { b with error := text, state := errorState } none
  | .windowMsg => finish W b msg [.windowChangesCmd]
  | .WindowSizeMsg w h =>
    match forwardToActive W { b with width := w, height := h } msg [] with
    | .panic b1 => .panic b1
    | .ok b1 cmds => finish W b1 msg cmds
  | .SelectedMsg i =>
    let b1 := { b with activeBox := 1 }
    match index? b1.repoMenu i with
    | none => .panic b1
    | some e =>
      let rb := W.GotoTop e.bubble
      let b2 := { b1 with repoMenu := store b1.repoMenu i { e with bubble := rb } }
      if 1 < b2.boxes.length then
        finish W { b2 with boxes := store b2.boxes 1 (some (.repo rb)) } msg []
      else .panic b2
  | .ActiveMsg i =>
    match index? b.repoMenu i with
    | none => .panic b
    | some e =>
      let rb := W.GotoTop e.bubble
      let b2 := { b with repoMenu := store b.repoMenu i { e with bubble := rb } }
      if 1 < b2.boxes.length then
        finish W { b2 with boxes := store b2.boxes 1 (some (.repo rb)) } msg []
      else .panic b2
  | .other _ => finish W b msg []

/-- The Go struct `helpEntry`. -/
structure helpEntry where
  key : String
  val : String
  deriving DecidableEq, Repr

/-- The styles `footerView` and `helpEntry.String` use; they are declared
outside `tui/bubble.go` and are parameters of the model. -/
structure Styles where
  helpKeyStyle : String → String
  helpValueStyle : String → String
  helpDivider : String
  footerStyle : Int → String → String

/-- `helpEntry.String`: `fmt.Sprintf("%s %s", key rendered, value rendered)`. -/
def helpEntry.String (st : Styles) (h : helpEntry) : String :=
  st.helpKeyStyle h.key ++ " " ++ st.helpValueStyle h.val

/-- The type assertion `x.(*repo.Bubble)` of `footerView`, on a pane slot. -/
def isRepoBubble {S R : Type} : Option (Model S R) → Bool
  | some (.repo _) => true
  | _ => false

/-- The slice `h` of help entries `footerView` composes; `none` when
`b.boxes[b.activeBox]` is out of range. -/
def footerEntries {S R : Type} (b : Bubble S R) : Option (List helpEntry) :=
  match b.state with
  | errorState => some [⟨"q", "quit"⟩]
  | _ =>
    let h : List helpEntry := [⟨"tab", "section"⟩, ⟨"↑/↓", "navigate"⟩, ⟨"q", "quit"⟩]
    match index? b.boxes b.activeBox with
    | none => none
    | some slot =>
      if isRepoBubble slot then
        some (h.take 2 ++ [⟨"f/b", "pgup/pgdown"⟩, h[2]])
      else some h

/-- The loop `for i, v := range h` of `footerView`, writing to the builder `w`
from position `i` on; `n` is `len(h)`. -/
def writeEntries (st : Styles) (n : Nat) : Nat → List helpEntry → String → String
  | _, [], w => w
  | i, v :: rest, w =>
    let w1 := w ++ v.String st
    let w2 := if i ≠ n - 1 then w1 ++ st.helpDivider else w1
    writeEntries st n (i + 1) rest w2

/-- The text `w.String()` that `footerView` hands to the footer style. -/
def footerText (st : Styles) (h : List helpEntry) : String :=
  writeEntries st h.length 0 h ""

/-- `Bubble.footerView`; `none` is a panic. -/
def footerView {S R : Type} (st : Styles) (b : Bubble S R) : Option String :=
  match footerEntries b with
  | none => none
  | some h => some (st.footerStyle b.width (footerText st h))

/-- A pair of sample pane widgets whose state is a line number: consuming any
message moves the widget one line down, `GotoTop` moves it back to line 0.
Neither hands back a command. -/
def scrollingWidgets : Widgets Nat Nat Nat where
  selectionUpdate := fun s _ => (some (.selection (s + 1)), none)
  repoUpdate := fun r _ => (some (.repo (r + 1)), none)
  GotoTop := fun _ => 0

/-- A loaded sample controller: selector at line 0 in slot 0, the detail viewer
of the only menu entry at line 5 in slot 1, pane `a` active. -/
def loadedSample (a : Int) : Bubble Nat Nat :=
  { state := loadedState
    error := ""
    width := 80
    height := 24
    initialRepo := ""
    repoMenu := [⟨"home", "notes", "home-repo", 5⟩]
    boxes := [some (.selection 0), some (.repo 5)]
    activeBox := a }

/-- The sample controller after a failure was reported. -/
def errorSample : Bubble Nat Nat :=
  { loadedSample 0 with state := errorState, error := "repository not found" }

/-- Sample styles that render text as it is and divide help entries by a dot. -/
def plainStyles : Styles where
  helpKeyStyle := fun s => s
  helpValueStyle := fun s => s
  helpDivider := " • "
  footerStyle := fun _ s => s

/-- The controller `NewBubble` builds for an 80 by 24 terminal. -/
def startSample : Bubble Nat Nat :=
  NewBubble ⟨80, 24, ""⟩

/-! ## Indexing lemmas -/

theorem index?_pair_zero {α : Type} (x y : α) : index? [x, y] 0 = some x := rfl

theorem index?_pair_one {α : Type} (x y : α) : index? [x, y] 1 = some y := rfl

theorem store_pair_zero {α : Type} (x y v : α) : store [x, y] 0 v = [v, y] := rfl

theorem store_pair_one {α : Type} (x y v : α) : store [x, y] 1 v = [x, v] := rfl

theorem length_two {α : Type} {l : List α} (h : l.length = 2) : ∃ x y, l = [x, y] := by
  match l, h with
  | [x, y], _ => exact ⟨x, y, rfl⟩

theorem forwardToActive_not_loaded {S R C : Type} (W : Widgets S R C) (b : Bubble S R)
    (msg : Msg) (cmds : List (BaseCmd C)) (h : b.state ≠ loadedState) :
    forwardToActive W b msg cmds = .ok b cmds := by
  simp [forwardToActive, h]

theorem finish_not_loaded {S R C : Type} (W : Widgets S R C) (b : Bubble S R)
    (msg : Msg) (cmds : List (BaseCmd C)) (h : b.state ≠ loadedState) :
    finish W b msg cmds = .ok b (some (.Batch cmds)) := by
  simp [finish, forwardToActive_not_loaded W b msg cmds h]

/-- What the forwarding block leaves untouched when it returns: everything but
the pane slots, whose number also stays. -/
theorem forwardToActive_frame {S R C : Type} (W : Widgets S R C) (b b1 : Bubble S R)
    (msg : Msg) (cmds cmds1 : List (BaseCmd C))
    (h : forwardToActive W b msg cmds = .ok b1 cmds1) :
    b1.activeBox = b.activeBox ∧ b1.state = b.state ∧ b1.error = b.error ∧
      b1.width = b.width ∧ b1.height = b.height ∧ b1.repoMenu = b.repoMenu ∧
      b1.boxes.length = b.boxes.length := by
  unfold forwardToActive at h
  split at h
  · split at h
    · cases h
    · cases h
    · dsimp only at h
      split at h <;> (cases h; simp [store])
  · cases h
    simp

theorem finish_frame {S R C : Type} (W : Widgets S R C) (b b1 : Bubble S R)
    (msg : Msg) (cmds : List (BaseCmd C)) (c : Option (Cmd C))
    (h : finish W b msg cmds = .ok b1 c) :
    b1.activeBox = b.activeBox ∧ b1.state = b.state ∧ b1.error = b.error ∧
      b1.width = b.width ∧ b1.height = b.height ∧ b1.repoMenu = b.repoMenu ∧
      b1.boxes.length = b.boxes.length := by
  unfold finish at h
  split at h
  · cases h
  · rename_i b2 cmds2 hf
    cases h
    exact forwardToActive_frame W b b1 msg cmds cmds2 hf

/-! ## Quit keys -/

/-- C1 (as the code has it): for every controller, in any session state, a quit
key message ("q" or "ctrl+c") makes `Update` return the controller unchanged,
its session state included, together with the `tea.Quit` command; no pane is
updated. -/
theorem Update_quit_key {S R C : Type} (W : Widgets S R C) (b : Bubble S R) (s : String)
    (hs : s = "q" ∨ s = "ctrl+c") :
    Update W b (.KeyMsg s) = .ok b (some .Quit) := by
  simp [Update, keySwitch, hs]

theorem Update_quit_key_witness :
    Update scrollingWidgets (loadedSample 0) (.KeyMsg "q")
      = .ok (loadedSample 0) (some .Quit) :=
  Update_quit_key scrollingWidgets (loadedSample 0) "q" (Or.inl rfl)

/-- C1 fails as stated: the loaded sample controller is not in the quit state,
and handling "q" does not yield a controller in the quitting or quit state. -/
theorem quit_key_state_counterexample :
    (loadedSample 0).state ≠ quitState ∧
      ¬ ∃ b1 c, Update scrollingWidgets (loadedSample 0) (.KeyMsg "q") = .ok b1 c ∧
          (b1.state = quittingState ∨ b1.state = quitState) := by
  refine ⟨by decide, ?_⟩
  rintro ⟨b1, c, h, hq⟩
  have h0 : Update scrollingWidgets (loadedSample 0) (.KeyMsg "q")
      = .ok (loadedSample 0) (some .Quit) := by
    simp [Update, keySwitch]
  rw [h0] at h
  cases h
  rcases hq with hq | hq <;> cases hq

/-! ## Error messages -/

/-- C4: for every controller, in any session state, and every error message
with text `t`, `Update` returns normally with session state error, stored error
text `t` and the nil command; no pane is touched: the pane slots and the active
index (and width, height and menu) are the ones before the message. -/
theorem Update_errMsg {S R C : Type} (W : Widgets S R C) (b : Bubble S R) (t : String) :
    ∃ b1, Update W b (.errMsg t) = .ok b1 none ∧
      b1.state = errorState ∧ b1.error = t ∧
      b1.boxes = b.boxes ∧ b1.activeBox = b.activeBox ∧
      b1.repoMenu = b.repoMenu ∧ b1.width = b.width ∧ b1.height = b.height :=
  ⟨{ b with error := t, state := errorState }, rfl, rfl, rfl, rfl, rfl, rfl, rfl, rfl⟩

/-! ## The active pane index -/

theorem keySwitch_frame {S R : Type} (b b1 : Bubble S R) (s : String)
    (h : keySwitch b s = some b1) :
    b1.boxes = b.boxes ∧ b1.state = b.state ∧ b1.error = b.error ∧
      b1.width = b.width ∧ b1.height = b.height ∧ b1.repoMenu = b.repoMenu := by
  unfold keySwitch at h
  split_ifs at h <;> cases h <;> simp

theorem keySwitch_range {S R : Type} (b b1 : Bubble S R) (s : String)
    (hlen : b.boxes.length = 2) (ha : b.activeBox = 0 ∨ b.activeBox = 1)
    (h : keySwitch b s = some b1) :
    b1.activeBox = 0 ∨ b1.activeBox = 1 := by
  unfold keySwitch at h
  rw [hlen] at h
  have t1 : Int.tmod (0 + 1) 2 = 1 := by decide
  have t2 : Int.tmod (1 + 1) 2 = 0 := by decide
  split_ifs at h <;> cases h <;> rcases ha with ha | ha <;> simp_all

theorem keySwitch_left {S R : Type} (b b1 : Bubble S R) (s : String)
    (hs : s = "h" ∨ s = "left") (h : keySwitch b s = some b1) :
    b1.activeBox = b.activeBox ∨ (b1.activeBox = b.activeBox - 1 ∧ 0 ≤ b1.activeBox) := by
  have h1 : ¬ (s = "q" ∨ s = "ctrl+c") := by rcases hs with hs | hs <;> subst hs <;> decide
  have h2 : ¬ (s = "tab" ∨ s = "shift+tab") := by
    rcases hs with hs | hs <;> subst hs <;> decide
  simp only [keySwitch, if_neg h1, if_neg h2, if_pos hs] at h
  split_ifs at h with hpos
  · cases h
    right
    exact ⟨rfl, by show 0 ≤ b.activeBox - 1; omega⟩
  · cases h
    left
    rfl

theorem keySwitch_right {S R : Type} (b b1 : Bubble S R) (s : String)
    (hlen : b.boxes.length = 2)
    (hs : s = "l" ∨ s = "right") (h : keySwitch b s = some b1) :
    b1.activeBox = b.activeBox ∨ (b1.activeBox = b.activeBox + 1 ∧ b1.activeBox ≤ 1) := by
  have h1 : ¬ (s = "q" ∨ s = "ctrl+c") := by rcases hs with hs | hs <;> subst hs <;> decide
  have h2 : ¬ (s = "tab" ∨ s = "shift+tab") := by
    rcases hs with hs | hs <;> subst hs <;> decide
  have h3 : ¬ (s = "h" ∨ s = "left") := by rcases hs with hs | hs <;> subst hs <;> decide
  simp only [keySwitch, if_neg h1, if_neg h2, if_neg h3, if_pos hs, hlen] at h
  split_ifs at h with hlt
  · cases h
    right
    refine ⟨rfl, ?_⟩
    show b.activeBox + 1 ≤ 1
    have : b.activeBox < ((2 : Nat) : Int) - 1 := hlt
    omega
  · cases h
    left
    rfl

theorem forwardToActive_loaded {S R C : Type} (W : Widgets S R C) (b : Bubble S R)
    (msg : Msg) (cmds : List (BaseCmd C)) (m : Model S R)
    (hst : b.state = loadedState) (hm : index? b.boxes b.activeBox = some (some m)) :
    ∃ cmds1, forwardToActive W b msg cmds
      = .ok { b with boxes := store b.boxes b.activeBox (W.update m msg).1 } cmds1 := by
  unfold forwardToActive
  rw [if_pos hst, hm]
  dsimp only
  cases (W.update m msg).2 with
  | none => exact ⟨_, rfl⟩
  | some c => exact ⟨_, rfl⟩

theorem finish_loaded {S R C : Type} (W : Widgets S R C) (b : Bubble S R)
    (msg : Msg) (cmds : List (BaseCmd C)) (m : Model S R)
    (hst : b.state = loadedState) (hm : index? b.boxes b.activeBox = some (some m)) :
    ∃ c, finish W b msg cmds
      = .ok { b with boxes := store b.boxes b.activeBox (W.update m msg).1 } c := by
  obtain ⟨cmds1, h⟩ := forwardToActive_loaded W b msg cmds m hst hm
  exact ⟨some (.Batch cmds1), by simp [finish, h]⟩

theorem Update_frame {S R C : Type} (W : Widgets S R C) (b b1 : Bubble S R) (msg : Msg)
    (c : Option (Cmd C)) (hlen : b.boxes.length = 2)
    (ha : b.activeBox = 0 ∨ b.activeBox = 1) (h : Update W b msg = .ok b1 c) :
    (b1.activeBox = 0 ∨ b1.activeBox = 1) ∧ b1.boxes.length = 2 := by
  cases msg with
  | KeyMsg s =>
    simp only [Update] at h
    split at h
    · cases h
      exact ⟨ha, hlen⟩
    · rename_i b2 hk
      have hf := finish_frame W b2 b1 _ _ c h
      have hr := keySwitch_range b b2 s hlen ha hk
      have hb := (keySwitch_frame b b2 s hk).1
      rw [hf.1, hf.2.2.2.2.2.2, hb]
      exact ⟨hr, hlen⟩
  | errMsg t =>
    simp only [Update] at h
    cases h
    exact ⟨ha, hlen⟩
  | windowMsg =>
    have hf := finish_frame W b b1 _ _ c h
    rw [hf.1, hf.2.2.2.2.2.2]
    exact ⟨ha, hlen⟩
  | WindowSizeMsg w ht =>
    simp only [Update] at h
    split at h
    · cases h
    · rename_i b2 cmds hfw
      have hf := finish_frame W b2 b1 _ _ c h
      have hg := forwardToActive_frame W _ b2 _ _ cmds hfw
      rw [hf.1, hf.2.2.2.2.2.2, hg.1, hg.2.2.2.2.2.2]
      exact ⟨ha, hlen⟩
  | SelectedMsg i =>
    simp only [Update] at h
    split at h
    · cases h
    · split at h
      · have hf := finish_frame W _ b1 _ _ c h
        rw [hf.1, hf.2.2.2.2.2.2]
        exact ⟨Or.inr rfl, by simp [store, hlen]⟩
      · cases h
  | ActiveMsg i =>
    simp only [Update] at h
    split at h
    · cases h
    · split at h
      · have hf := finish_frame W _ b1 _ _ c h
        rw [hf.1, hf.2.2.2.2.2.2]
        exact ⟨ha, by simp [store, hlen]⟩
      · cases h
  | other n =>
    have hf := finish_frame W b b1 _ _ c h
    rw [hf.1, hf.2.2.2.2.2.2]
    exact ⟨ha, hlen⟩

/-- C6: for a controller with two pane slots, (1) if the active index is 0 or 1
then after every message on which `Update` returns normally the active index is
again 0 or 1, and there are still two slots; (2) "h"/"left", from any starting
index, either keeps the index or decrements it to a value that is not below 0;
(3) "l"/"right", from any starting index, either keeps the index or increments
it to a value that is not above 1. -/
theorem activeBox_invariant {S R C : Type} (W : Widgets S R C) (b : Bubble S R) (msg : Msg)
    (hlen : b.boxes.length = 2) :
    (b.activeBox = 0 ∨ b.activeBox = 1 →
      ∀ b1 c, Update W b msg = .ok b1 c →
        (b1.activeBox = 0 ∨ b1.activeBox = 1) ∧ b1.boxes.length = 2) ∧
    (∀ s b1 c, s = "h" ∨ s = "left" → Update W b (.KeyMsg s) = .ok b1 c →
      b1.activeBox = b.activeBox ∨ (b1.activeBox = b.activeBox - 1 ∧ 0 ≤ b1.activeBox)) ∧
    (∀ s b1 c, s = "l" ∨ s = "right" → Update W b (.KeyMsg s) = .ok b1 c →
      b1.activeBox = b.activeBox ∨ (b1.activeBox = b.activeBox + 1 ∧ b1.activeBox ≤ 1)) := by
  refine ⟨fun ha b1 c h => Update_frame W b b1 msg c hlen ha h, ?_, ?_⟩
  · intro s b1 c hs h
    simp only [Update] at h
    split at h
    · rename_i hk
      rcases hs with hs | hs <;> subst hs <;> simp [keySwitch] at hk
    · rename_i b2 hk
      rw [(finish_frame W b2 b1 _ _ c h).1]
      exact keySwitch_left b b2 s hs hk
  · intro s b1 c hs h
    simp only [Update] at h
    split at h
    · rename_i hk
      rcases hs with hs | hs <;> subst hs <;> simp [keySwitch] at hk
    · rename_i b2 hk
      rw [(finish_frame W b2 b1 _ _ c h).1]
      exact keySwitch_right b b2 s hlen hs hk

theorem activeBox_invariant_witness :
    ∃ b1 c, Update scrollingWidgets (loadedSample 1) (.KeyMsg "l") = .ok b1 c ∧
      (b1.activeBox = 0 ∨ b1.activeBox = 1) ∧ b1.boxes.length = 2 ∧
      (b1.activeBox = (loadedSample 1).activeBox ∨
        (b1.activeBox = (loadedSample 1).activeBox + 1 ∧ b1.activeBox ≤ 1)) :=
  ⟨_, _, rfl,
    ((activeBox_invariant scrollingWidgets (loadedSample 1) (.KeyMsg "l") rfl).1
      (Or.inr rfl) _ _ rfl).1,
    ((activeBox_invariant scrollingWidgets (loadedSample 1) (.KeyMsg "l") rfl).1
      (Or.inr rfl) _ _ rfl).2,
    (activeBox_invariant scrollingWidgets (loadedSample 1) (.KeyMsg "l") rfl).2.2
      "l" _ _ (Or.inl rfl) rfl⟩

theorem Update_tab {S R C : Type} (W : Widgets S R C) (b : Bubble S R) :
    Update W b (.KeyMsg "tab")
      = finish W { b with activeBox := (b.activeBox + 1).tmod 2 } (.KeyMsg "tab") [] := by
  have h : keySwitch b "tab" = some { b with activeBox := (b.activeBox + 1).tmod 2 } := by
    simp [keySwitch]
  simp only [Update, h]

/-- When both pane slots hold widgets, two "tab" keys in a row both return
normally, the first with active index `(a + 1) mod 2`, the second with `a`. -/
theorem tab_twice_returns {S R C : Type} (W : Widgets S R C) (b : Bubble S R)
    (p0 p1 : Model S R)
    (hst : b.state = loadedState) (hb : b.boxes = [some p0, some p1])
    (ha : b.activeBox = 0 ∨ b.activeBox = 1) :
    ∃ b1 c1, Update W b (.KeyMsg "tab") = .ok b1 c1 ∧
      b1.activeBox = (b.activeBox + 1) % 2 ∧
      ∃ b2 c2, Update W b1 (.KeyMsg "tab") = .ok b2 c2 ∧ b2.activeBox = b.activeBox := by
  have t1 : Int.tmod 1 2 = 1 := by decide
  have t2 : Int.tmod 2 2 = 0 := by decide
  obtain ⟨st, er, w, h, ir, rm, bx, ab⟩ := b
  simp only at hst hb ha
  subst hst hb
  rcases ha with ha | ha <;> subst ha
  · obtain ⟨c1, h1⟩ := finish_loaded W
      ⟨loadedState, er, w, h, ir, rm, [some p0, some p1], 1⟩ (.KeyMsg "tab") [] p1 rfl rfl
    obtain ⟨c2, h2⟩ := finish_loaded W
      ⟨loadedState, er, w, h, ir, rm, [some p0, (W.update p1 (.KeyMsg "tab")).1], 0⟩
      (.KeyMsg "tab") [] p0 rfl rfl
    refine ⟨⟨loadedState, er, w, h, ir, rm, [some p0, (W.update p1 (.KeyMsg "tab")).1], 1⟩,
      c1, ?_, ?_, ⟨loadedState, er, w, h, ir, rm,
        [(W.update p0 (.KeyMsg "tab")).1, (W.update p1 (.KeyMsg "tab")).1], 0⟩, c2, ?_, ?_⟩
    · rw [Update_tab]
      simpa [t1, store_pair_one] using h1
    · rfl
    · rw [Update_tab]
      simpa [t2, store_pair_zero] using h2
    · rfl
  · obtain ⟨c1, h1⟩ := finish_loaded W
      ⟨loadedState, er, w, h, ir, rm, [some p0, some p1], 0⟩ (.KeyMsg "tab") [] p0 rfl rfl
    obtain ⟨c2, h2⟩ := finish_loaded W
      ⟨loadedState, er, w, h, ir, rm, [(W.update p0 (.KeyMsg "tab")).1, some p1], 1⟩
      (.KeyMsg "tab") [] p1 rfl rfl
    refine ⟨⟨loadedState, er, w, h, ir, rm, [(W.update p0 (.KeyMsg "tab")).1, some p1], 0⟩,
      c1, ?_, ?_, ⟨loadedState, er, w, h, ir, rm,
        [(W.update p0 (.KeyMsg "tab")).1, (W.update p1 (.KeyMsg "tab")).1], 1⟩, c2, ?_, ?_⟩
    · rw [Update_tab]
      simpa [t2, store_pair_zero] using h1
    · rfl
    · rw [Update_tab]
      simpa [t1, store_pair_one] using h2
    · rfl

/-- The forwarding block never writes the active index, also when it panics. -/
theorem forwardToActive_controller_activeBox {S R C : Type} (W : Widgets S R C)
    (b : Bubble S R) (msg : Msg) (cmds : List (BaseCmd C)) :
    (forwardToActive W b msg cmds).controller.activeBox = b.activeBox := by
  unfold forwardToActive
  split
  · split
    · rfl
    · rfl
    · dsimp only
      split <;> rfl
  · rfl

theorem finish_controller_activeBox {S R C : Type} (W : Widgets S R C)
    (b : Bubble S R) (msg : Msg) (cmds : List (BaseCmd C)) :
    (finish W b msg cmds).controller.activeBox = b.activeBox := by
  have h := forwardToActive_controller_activeBox W b msg cmds
  unfold finish
  split
  · rename_i b1 hf
    rw [hf] at h
    exact h
  · rename_i b1 cmds1 hf
    rw [hf] at h
    exact h

theorem Update_tab_activeBox {S R C : Type} (W : Widgets S R C) (b : Bubble S R) :
    (Update W b (.KeyMsg "tab")).controller.activeBox = (b.activeBox + 1).tmod 2 := by
  rw [Update_tab]
  exact finish_controller_activeBox W _ _ _

/-- C7: for every loaded controller with active index `a` in {0,1}, whatever its
pane slots hold, the controller after `Update` on "tab" has active index
`(a + 1) mod 2`, and the controller after `Update` on "tab" once more has active
index `a`.  This holds on every outcome of the two calls; when both pane slots
hold widgets, both calls return normally. -/
theorem tab_twice {S R C : Type} (W : Widgets S R C) (b : Bubble S R)
    (hst : b.state = loadedState) (ha : b.activeBox = 0 ∨ b.activeBox = 1) :
    (Update W b (.KeyMsg "tab")).controller.activeBox = (b.activeBox + 1) % 2 ∧
      (Update W (Update W b (.KeyMsg "tab")).controller (.KeyMsg "tab")).controller.activeBox
        = b.activeBox ∧
      (∀ p0 p1, b.boxes = [some p0, some p1] →
        ∃ b1 c1, Update W b (.KeyMsg "tab") = .ok b1 c1 ∧
          ∃ b2 c2, Update W b1 (.KeyMsg "tab") = .ok b2 c2) := by
  have t1 : Int.tmod (0 + 1) 2 = 1 := by decide
  have t2 : Int.tmod (1 + 1) 2 = 0 := by decide
  refine ⟨?_, ?_, ?_⟩
  · rw [Update_tab_activeBox]
    rcases ha with ha | ha <;> rw [ha]
    · exact t1
    · exact t2
  · rw [Update_tab_activeBox, Update_tab_activeBox]
    rcases ha with ha | ha <;> rw [ha]
    · rw [t1]
      exact t2
    · rw [t2]
      exact t1
  · intro p0 p1 hb
    obtain ⟨b1, c1, h1, -, b2, c2, h2, -⟩ := tab_twice_returns W b p0 p1 hst hb ha
    exact ⟨b1, c1, h1, b2, c2, h2⟩

theorem tab_twice_witness :
    (Update scrollingWidgets (loadedSample 0) (.KeyMsg "tab")).controller.activeBox = 1 ∧
      (Update scrollingWidgets
        (Update scrollingWidgets (loadedSample 0) (.KeyMsg "tab")).controller
        (.KeyMsg "tab")).controller.activeBox = 0 ∧
      ∃ b1 c1, Update scrollingWidgets (loadedSample 0) (.KeyMsg "tab") = .ok b1 c1 ∧
        ∃ b2 c2, Update scrollingWidgets b1 (.KeyMsg "tab") = .ok b2 c2 :=
  ⟨(tab_twice scrollingWidgets (loadedSample 0) rfl (Or.inl rfl)).1,
    (tab_twice scrollingWidgets (loadedSample 0) rfl (Or.inl rfl)).2.1,
    (tab_twice scrollingWidgets (loadedSample 0) rfl (Or.inl rfl)).2.2
      (.selection 0) (.repo 5) rfl⟩

/-! ## Keys in the start state -/

/-- C8 (as the code has it): for every controller in the start state and every
key that is not a quit key, `Update` returns normally with the empty batch and
forwards the key to no pane: both pane slots, session state, width, height,
error text and menu are unchanged.  The key switch is not gated on the session
state: "tab"/"shift+tab" set the active index `a` to `(a + 1) % 2`, "h"/"left"
decrement it when it is positive, "l"/"right" increment it when it is below
`len(boxes) - 1`; every other key leaves it unchanged. -/
theorem Update_key_start {S R C : Type} (W : Widgets S R C) (b : Bubble S R) (s : String)
    (hst : b.state = startState) (hq : ¬ (s = "q" ∨ s = "ctrl+c")) :
    ∃ b1, Update W b (.KeyMsg s) = .ok b1 (some (.Batch [])) ∧
      b1.boxes = b.boxes ∧ b1.state = b.state ∧ b1.error = b.error ∧
      b1.width = b.width ∧ b1.height = b.height ∧ b1.repoMenu = b.repoMenu ∧
      (s = "tab" ∨ s = "shift+tab" → b1.activeBox = (b.activeBox + 1).tmod 2) ∧
      (s = "h" ∨ s = "left" →
        b1.activeBox = if b.activeBox > 0 then b.activeBox - 1 else b.activeBox) ∧
      (s = "l" ∨ s = "right" →
        b1.activeBox = if b.activeBox < (b.boxes.length : Int) - 1 then b.activeBox + 1
          else b.activeBox) ∧
      (¬ (s = "tab" ∨ s = "shift+tab") → ¬ (s = "h" ∨ s = "left") →
        ¬ (s = "l" ∨ s = "right") → b1.activeBox = b.activeBox) := by
  cases hk : keySwitch b s with
  | none => simp [keySwitch, hq] at hk; split_ifs at hk
  | some b1 =>
    have hfr := keySwitch_frame b b1 s hk
    have hne : b1.state ≠ loadedState := by rw [hfr.2.1, hst]; decide
    refine ⟨b1, ?_, hfr.1, hfr.2.1, hfr.2.2.1, hfr.2.2.2.1, hfr.2.2.2.2.1, hfr.2.2.2.2.2,
      ?_, ?_, ?_, ?_⟩
    · simp only [Update, hk]
      exact finish_not_loaded W b1 _ _ hne
    · intro h1
      simp only [keySwitch, if_neg hq, if_pos h1] at hk
      cases hk
      rfl
    · intro h2
      have h1 : ¬ (s = "tab" ∨ s = "shift+tab") := by
        rcases h2 with h2 | h2 <;> subst h2 <;> decide
      simp only [keySwitch, if_neg hq, if_neg h1, if_pos h2] at hk
      cases hk
      split_ifs <;> rfl
    · intro h3
      have h1 : ¬ (s = "tab" ∨ s = "shift+tab") := by
        rcases h3 with h3 | h3 <;> subst h3 <;> decide
      have h2 : ¬ (s = "h" ∨ s = "left") := by
        rcases h3 with h3 | h3 <;> subst h3 <;> decide
      simp only [keySwitch, if_neg hq, if_neg h1, if_neg h2, if_pos h3] at hk
      cases hk
      split_ifs <;> rfl
    · intro h1 h2 h3
      simp only [keySwitch, if_neg hq, if_neg h1, if_neg h2, if_neg h3] at hk
      cases hk
      rfl

theorem Update_key_start_witness :
    ∃ b1, Update scrollingWidgets startSample (.KeyMsg "tab") = .ok b1 (some (.Batch [])) ∧
      b1.boxes = startSample.boxes ∧ b1.state = startState ∧ b1.activeBox = 1 := by
  obtain ⟨b1, h, hb, hs, -, -, -, -, ht, -⟩ :=
    Update_key_start scrollingWidgets startSample "tab" rfl (by decide)
  exact ⟨b1, h, hb, hs, (ht (Or.inl rfl)).trans (by decide)⟩

/-- C8 fails as stated: the controller built by `NewBubble` is in the start
state with active index 0, "tab" is not a quit key, and handling "tab" does not
leave the active index unchanged (it becomes 1). -/
theorem key_start_counterexample :
    startSample.state = startState ∧ ¬ ("tab" = "q" ∨ "tab" = "ctrl+c") ∧
      ¬ ∃ b1 c, Update scrollingWidgets startSample (.KeyMsg "tab") = .ok b1 c ∧
          b1.activeBox = startSample.activeBox := by
  refine ⟨rfl, by decide, ?_⟩
  rintro ⟨b1, c, h, ha⟩
  have h0 : Update scrollingWidgets startSample (.KeyMsg "tab")
      = .ok { startSample with activeBox := 1 } (some (.Batch [])) := rfl
  rw [h0] at h
  cases h
  exact absurd ha (by decide)

/-! ## Selection and activation -/

/-- C2 (as the code has it): for every loaded controller with two pane slots,
whatever its prior active index, and every Selected message whose index `i` is
in range, `Update` returns normally with active index 1, and pane slot 1 holds
what menu entry `i`'s detail view, reset by `GotoTop`, hands back on consuming
the Selected message once: the message is forwarded to the newly active pane.
Pane slot 0 is unchanged. -/
theorem Update_SelectedMsg {S R C : Type} (W : Widgets S R C) (b : Bubble S R) (i : Int)
    (e : MenuEntry R) (hst : b.state = loadedState) (hlen : b.boxes.length = 2)
    (he : index? b.repoMenu i = some e) :
    ∃ b1 c, Update W b (.SelectedMsg i) = .ok b1 c ∧ b1.activeBox = 1 ∧
      index? b1.boxes 1 = some (W.repoUpdate (W.GotoTop e.bubble) (.SelectedMsg i)).1 ∧
      index? b1.boxes 0 = index? b.boxes 0 := by
  obtain ⟨x, y, hxy⟩ := length_two hlen
  obtain ⟨st, er, w, h, ir, rm, bx, ab⟩ := b
  simp only at hst hxy he
  subst hst hxy
  obtain ⟨c, hc⟩ := finish_loaded W
    ⟨loadedState, er, w, h, ir, store rm i { e with bubble := W.GotoTop e.bubble },
      [x, some (.repo (W.GotoTop e.bubble))], 1⟩
    (.SelectedMsg i) [] (.repo (W.GotoTop e.bubble)) rfl rfl
  have hU : Update W ⟨loadedState, er, w, h, ir, rm, [x, y], ab⟩ (.SelectedMsg i)
      = finish W ⟨loadedState, er, w, h, ir,
          store rm i { e with bubble := W.GotoTop e.bubble },
          [x, some (.repo (W.GotoTop e.bubble))], 1⟩ (.SelectedMsg i) [] := by
    simp [Update, he, store_pair_one]
  exact ⟨_, c, hU.trans hc, rfl, rfl, rfl⟩

theorem Update_SelectedMsg_witness :
    ∃ b1 c, Update scrollingWidgets (loadedSample 0) (.SelectedMsg 0) = .ok b1 c ∧
      b1.activeBox = 1 ∧ index? b1.boxes 1 = some (some (.repo 1)) ∧
      index? b1.boxes 0 = some (some (.selection 0)) :=
  Update_SelectedMsg scrollingWidgets (loadedSample 0) 0 ⟨"home", "notes", "home-repo", 5⟩
    rfl rfl rfl

/-- C2 fails as stated: on the loaded sample controller with the selector
active, a Selected message for entry 0 (in range) does not leave pane slot 1
holding exactly the reset detail view of entry 0: the view has also consumed the
Selected message. -/
theorem SelectedMsg_counterexample :
    (loadedSample 0).state = loadedState ∧
      index? (loadedSample 0).repoMenu 0 = some ⟨"home", "notes", "home-repo", 5⟩ ∧
      ¬ ∃ b1 c, Update scrollingWidgets (loadedSample 0) (.SelectedMsg 0) = .ok b1 c ∧
          b1.activeBox = 1 ∧
          index? b1.boxes 1 = some (some (.repo (scrollingWidgets.GotoTop 5))) := by
  refine ⟨rfl, rfl, ?_⟩
  rintro ⟨b1, c, h, -, hs⟩
  have h0 : Update scrollingWidgets (loadedSample 0) (.SelectedMsg 0)
      = .ok { loadedSample 1 with
          repoMenu := [⟨"home", "notes", "home-repo", 0⟩]
          boxes := [some (.selection 0), some (.repo 1)] } (some (.Batch [])) := rfl
  rw [h0] at h
  cases h
  revert hs
  decide

/-- C3 (as the code has it): for every loaded controller with two pane slots and
active index `a` (0 or 1; when `a = 0`, slot 0 holds a widget), and every Active
message whose index `i` is in range, `Update` returns normally and leaves the
active index equal to `a`.  When `a = 0`, pane slot 1 is menu entry `i`'s detail
view reset by `GotoTop`; when `a = 1`, pane slot 1 is what that reset view hands
back on consuming the Active message once. -/
theorem Update_ActiveMsg {S R C : Type} (W : Widgets S R C) (b : Bubble S R) (i : Int)
    (e : MenuEntry R) (hst : b.state = loadedState) (hlen : b.boxes.length = 2)
    (ha : b.activeBox = 0 ∨ b.activeBox = 1)
    (he : index? b.repoMenu i = some e)
    (h0 : b.activeBox = 0 → ∃ m, index? b.boxes 0 = some (some m)) :
    ∃ b1 c, Update W b (.ActiveMsg i) = .ok b1 c ∧ b1.activeBox = b.activeBox ∧
      (b.activeBox = 0 →
        index? b1.boxes 1 = some (some (.repo (W.GotoTop e.bubble)))) ∧
      (b.activeBox = 1 →
        index? b1.boxes 1
          = some (W.repoUpdate (W.GotoTop e.bubble) (.ActiveMsg i)).1) := by
  obtain ⟨x, y, hxy⟩ := length_two hlen
  obtain ⟨st, er, w, h, ir, rm, bx, ab⟩ := b
  simp only at hst hxy he ha h0
  subst hst hxy
  rcases ha with ha | ha <;> subst ha
  · obtain ⟨m, hm⟩ := h0 rfl
    rw [index?_pair_zero] at hm
    cases hm
    obtain ⟨c, hc⟩ := finish_loaded W
      ⟨loadedState, er, w, h, ir, store rm i { e with bubble := W.GotoTop e.bubble },
        [some m, some (.repo (W.GotoTop e.bubble))], 0⟩
      (.ActiveMsg i) [] m rfl rfl
    have hU : Update W ⟨loadedState, er, w, h, ir, rm, [some m, y], 0⟩ (.ActiveMsg i)
        = finish W ⟨loadedState, er, w, h, ir,
            store rm i { e with bubble := W.GotoTop e.bubble },
            [some m, some (.repo (W.GotoTop e.bubble))], 0⟩ (.ActiveMsg i) [] := by
      simp [Update, he, store_pair_one]
    have hne : ¬ ((0 : Int) = 1) := by decide
    exact ⟨_, c, hU.trans hc, rfl, fun _ => rfl, fun h1 => absurd h1 hne⟩
  · obtain ⟨c, hc⟩ := finish_loaded W
      ⟨loadedState, er, w, h, ir, store rm i { e with bubble := W.GotoTop e.bubble },
        [x, some (.repo (W.GotoTop e.bubble))], 1⟩
      (.ActiveMsg i) [] (.repo (W.GotoTop e.bubble)) rfl rfl
    have hU : Update W ⟨loadedState, er, w, h, ir, rm, [x, y], 1⟩ (.ActiveMsg i)
        = finish W ⟨loadedState, er, w, h, ir,
            store rm i { e with bubble := W.GotoTop e.bubble },
            [x, some (.repo (W.GotoTop e.bubble))], 1⟩ (.ActiveMsg i) [] := by
      simp [Update, he, store_pair_one]
    have hne : ¬ ((1 : Int) = 0) := by decide
    exact ⟨_, c, hU.trans hc, rfl, fun h1 => absurd h1 hne, fun _ => rfl⟩

theorem Update_ActiveMsg_witness :
    ∃ b1 c, Update scrollingWidgets (loadedSample 0) (.ActiveMsg 0) = .ok b1 c ∧
      b1.activeBox = 0 ∧ index? b1.boxes 1 = some (some (.repo 0)) := by
  obtain ⟨b1, c, h, ha, h0, -⟩ :=
    Update_ActiveMsg scrollingWidgets (loadedSample 0) 0 ⟨"home", "notes", "home-repo", 5⟩
      rfl rfl (Or.inl rfl) rfl (fun _ => ⟨.selection 0, rfl⟩)
  exact ⟨b1, c, h, ha, h0 rfl⟩

/-- C3 fails as stated: on the loaded sample controller with the detail pane
active (index 1), an Active message for entry 0 (in range) does not leave pane
slot 1 holding the reset detail view of entry 0: the view has also consumed the
Active message. -/
theorem ActiveMsg_counterexample :
    (loadedSample 1).state = loadedState ∧ (loadedSample 1).activeBox = 1 ∧
      index? (loadedSample 1).repoMenu 0 = some ⟨"home", "notes", "home-repo", 5⟩ ∧
      ¬ ∃ b1 c, Update scrollingWidgets (loadedSample 1) (.ActiveMsg 0) = .ok b1 c ∧
          b1.activeBox = (loadedSample 1).activeBox ∧
          index? b1.boxes 1 = some (some (.repo (scrollingWidgets.GotoTop 5))) := by
  refine ⟨rfl, rfl, rfl, ?_⟩
  rintro ⟨b1, c, h, -, hs⟩
  have h0 : Update scrollingWidgets (loadedSample 1) (.ActiveMsg 0)
      = .ok { loadedSample 1 with
          repoMenu := [⟨"home", "notes", "home-repo", 0⟩]
          boxes := [some (.selection 0), some (.repo 1)] } (some (.Batch [])) := rfl
  rw [h0] at h
  cases h
  revert hs
  decide

/-! ## Resize messages -/

/-- C5, the code at the failing input: on the loaded sample controller with the
selector (at line 0) active, the resize message 100 by 40 is stored as width and
height and the detail pane is untouched, but the selector ends at line 2: it has
consumed the message twice, once in the resize case and once after the type
switch.  Consuming it once would leave the selector at line 1. -/
theorem resize_forwarded_twice :
    Update scrollingWidgets (loadedSample 0) (.WindowSizeMsg 100 40)
        = .ok { loadedSample 0 with
            width := 100
            height := 40
            boxes := [some (.selection 2), some (.repo 5)] } (some (.Batch [])) ∧
      (scrollingWidgets.update (.selection 0) (.WindowSizeMsg 100 40)).1
        = some (.selection 1) :=
  ⟨rfl, rfl⟩

theorem index?_store_self {α : Type} (l : List α) (i : Int) (x v : α)
    (h : index? l i = some x) : index? (store l i v) i = some v := by
  unfold index? at h ⊢
  split_ifs at h ⊢ with hi
  unfold store
  rw [List.get?_eq_getElem?] at h ⊢
  have hlt : i.toNat < l.length := by
    by_contra hge
    rw [List.getElem?_eq_none (by omega)] at h
    cases h
  exact List.getElem?_set_self hlt

theorem store_store {α : Type} (l : List α) (i : Int) (v v2 : α) :
    store (store l i v) i v2 = store l i v2 := by
  simp [store]

/-- The double forward is not particular to the sample widgets: for every loaded
controller whose active slot holds a widget `m` that hands back a widget `m1` on
the resize message, `Update` leaves in the active slot what `m1` hands back on
consuming the same message again. -/
theorem Update_WindowSizeMsg_loaded {S R C : Type} (W : Widgets S R C) (b : Bubble S R)
    (w h : Int) (m m1 : Model S R) (hst : b.state = loadedState)
    (hm : index? b.boxes b.activeBox = some (some m))
    (hm1 : (W.update m (.WindowSizeMsg w h)).1 = some m1) :
    ∃ c, Update W b (.WindowSizeMsg w h)
      = .ok { b with
          width := w
          height := h
          boxes := store b.boxes b.activeBox (W.update m1 (.WindowSizeMsg w h)).1 } c := by
  obtain ⟨cmds1, h1⟩ := forwardToActive_loaded W { b with width := w, height := h }
    (.WindowSizeMsg w h) [] m hst hm
  obtain ⟨c, h2⟩ := finish_loaded W
    { b with
      width := w
      height := h
      boxes := store b.boxes b.activeBox (W.update m (.WindowSizeMsg w h)).1 }
    (.WindowSizeMsg w h) cmds1 m1 hst
    (by rw [hm1]; exact index?_store_self b.boxes b.activeBox (some m) (some m1) hm)
  refine ⟨c, ?_⟩
  simp only [Update, h1]
  rw [h2]
  simp [store_store]

/-! ## Indices outside the menu -/

theorem index?_eq_none {α : Type} (l : List α) (i : Int) :
    index? l i = none ↔ i < 0 ∨ (l.length : Int) ≤ i := by
  unfold index?
  split_ifs with h
  · rw [List.get?_eq_none]
    omega
  · simp
    omega

/-- Out of range, both messages panic: `ActiveMsg` with the controller as it
was, `SelectedMsg` with the active index already set to 1. -/
theorem Update_index_out_of_range {S R C : Type} (W : Widgets S R C) (b : Bubble S R)
    (i : Int) (hi : i < 0 ∨ (b.repoMenu.length : Int) ≤ i) :
    Update W b (.SelectedMsg i) = .panic { b with activeBox := 1 } ∧
      Update W b (.ActiveMsg i) = .panic b := by
  have h := (index?_eq_none b.repoMenu i).mpr hi
  simp [Update, h]

/-- C9, the code at the failing input: on the loaded sample controller with the
selector active (index 0) and one menu entry, `SelectedMsg` with index 1 panics,
and at the point of failure the active index is 1, not 0.  `ActiveMsg` with the
same index panics with the controller as it was. -/
theorem SelectedMsg_out_of_range_moves_focus :
    Update scrollingWidgets (loadedSample 0) (.SelectedMsg 1)
        = .panic { loadedSample 0 with activeBox := 1 } ∧
      (loadedSample 0).activeBox = 0 ∧
      Update scrollingWidgets (loadedSample 0) (.ActiveMsg 1) = .panic (loadedSample 0) :=
  ⟨rfl, rfl, rfl⟩

/-! ## The help line -/

theorem writeEntries_cons {st : Styles} (n i : Nat) (v : helpEntry) (rest : List helpEntry)
    (w : String) (hn : i + (rest.length + 1) = n) :
    writeEntries st n i (v :: rest) w
      = String.intercalate.go (w ++ v.String st) st.helpDivider
          (rest.map (helpEntry.String st)) := by
  induction rest generalizing i v w with
  | nil =>
    have hi : ¬ (i ≠ n - 1) := by simp at hn; omega
    simp only [writeEntries, if_neg hi, List.map_nil, String.intercalate.go]
  | cons v2 rest2 ih =>
    have hi : i ≠ n - 1 := by simp at hn; omega
    simp only [writeEntries, if_pos hi, List.map_cons, String.intercalate.go]
    have := ih (i + 1) v2 (w ++ v.String st ++ st.helpDivider) (by simp at hn ⊢; omega)
    simpa [writeEntries] using this

/-- The loop of `footerView` writes the entries separated by the help divider,
with no divider after the last one. -/
theorem footerText_eq_intercalate (st : Styles) (h : List helpEntry) :
    footerText st h = String.intercalate st.helpDivider (h.map (helpEntry.String st)) := by
  cases h with
  | nil => rfl
  | cons v rest =>
    simp only [footerText, List.map_cons, String.intercalate]
    rw [writeEntries_cons _ _ _ _ _ (by simp), String.empty_append]

/-- C10: the help entries `footerView` composes are exactly `[q quit]` in the
error state; in the loaded state exactly `[tab section, ↑/↓ navigate, q quit]`
when the active pane is the selector, and exactly
`[tab section, ↑/↓ navigate, f/b pgup/pgdown, q quit]` when the active pane is
the detail viewer.  The footer is the footer style applied to the rendered
entries joined by the help divider, with no divider after the last entry. -/
theorem footerView_help {S R : Type} (st : Styles) (b : Bubble S R) :
    (b.state = errorState →
      footerEntries b = some [⟨"q", "quit"⟩] ∧
      footerView st b = some (st.footerStyle b.width
        (helpEntry.String st ⟨"q", "quit"⟩))) ∧
    (b.state = loadedState →
      (∃ s, index? b.boxes b.activeBox = some (some (.selection s))) →
      footerEntries b
        = some [⟨"tab", "section"⟩, ⟨"↑/↓", "navigate"⟩, ⟨"q", "quit"⟩] ∧
      footerView st b = some (st.footerStyle b.width
        (helpEntry.String st ⟨"tab", "section"⟩ ++ st.helpDivider ++
          helpEntry.String st ⟨"↑/↓", "navigate"⟩ ++ st.helpDivider ++
          helpEntry.String st ⟨"q", "quit"⟩))) ∧
    (b.state = loadedState →
      (∃ r, index? b.boxes b.activeBox = some (some (.repo r))) →
      footerEntries b
        = some [⟨"tab", "section"⟩, ⟨"↑/↓", "navigate"⟩, ⟨"f/b", "pgup/pgdown"⟩,
            ⟨"q", "quit"⟩] ∧
      footerView st b = some (st.footerStyle b.width
        (helpEntry.String st ⟨"tab", "section"⟩ ++ st.helpDivider ++
          helpEntry.String st ⟨"↑/↓", "navigate"⟩ ++ st.helpDivider ++
          helpEntry.String st ⟨"f/b", "pgup/pgdown"⟩ ++ st.helpDivider ++
          helpEntry.String st ⟨"q", "quit"⟩))) := by
  refine ⟨?_, ?_, ?_⟩
  · intro hst
    have he : footerEntries b = some [⟨"q", "quit"⟩] := by simp [footerEntries, hst]
    refine ⟨he, ?_⟩
    simp only [footerView, he, footerText_eq_intercalate]
    rfl
  · rintro hst ⟨s, hs⟩
    have he : footerEntries b
        = some [⟨"tab", "section"⟩, ⟨"↑/↓", "navigate"⟩, ⟨"q", "quit"⟩] := by
      simp [footerEntries, hst, hs, isRepoBubble]
    refine ⟨he, ?_⟩
    simp only [footerView, he, footerText_eq_intercalate]
    rfl
  · rintro hst ⟨r, hr⟩
    have he : footerEntries b
        = some [⟨"tab", "section"⟩, ⟨"↑/↓", "navigate"⟩, ⟨"f/b", "pgup/pgdown"⟩,
            ⟨"q", "quit"⟩] := by
      simp [footerEntries, hst, hr, isRepoBubble]
    refine ⟨he, ?_⟩
    simp only [footerView, he, footerText_eq_intercalate]
    rfl

theorem footerView_help_witness :
    footerView plainStyles errorSample = some "q quit" ∧
      footerView plainStyles (loadedSample 0)
        = some "tab section • ↑/↓ navigate • q quit" ∧
      footerView plainStyles (loadedSample 1)
        = some "tab section • ↑/↓ navigate • f/b pgup/pgdown • q quit" :=
  ⟨((footerView_help plainStyles errorSample).1 rfl).2,
    ((footerView_help plainStyles (loadedSample 0)).2.1 rfl ⟨0, rfl⟩).2,
    ((footerView_help plainStyles (loadedSample 1)).2.2 rfl ⟨5, rfl⟩).2⟩

end Tui
